import Mathlib

/-!
Shallow embedding of the Flight of the Toasters front-end: the sprite image
selector (chooseImageType, normal and christmas modes), the per-sprite leg
completion transition of the animation controller (the leg-reset branch of
moveItem inside FlyingItem), and the snapshot acceptance step of the scene
composer (fetchDataAndUpdate in App). Numbers are modelled as rationals,
the per-leg calls to Math.random are passed in explicitly as draw values in
[0,1), and the pieces of the global config that these functions read are
collected in a Config structure.
-/

/-- The two sprite kinds: pods render as toast, nodes as toasters. -/
inductive Kind where
  | toast
  | toaster
deriving DecidableEq

/-- The string used in the JS template literals that build variant names
from the kind, as in the source expressions of the form type ++ "1". -/
def Kind.str : Kind → String
  | .toast => "toast"
  | .toaster => "toaster"

/-- A JavaScript value that is either a number or a string; the feed field
cpuUsage has this shape (the sentinel no-data marker is the string 4040404). -/
inductive JsVal where
  | num (v : ℚ)
  | str (s : String)
deriving DecidableEq

/-- JS numeric coercion as exercised by this app: numbers pass through and
strings of decimal digits parse; any other string behaves as NaN, modelled
as none (every NaN comparison below is false). -/
def toNumber : JsVal → Option ℚ
  | .num v => some v
  | .str s => (s.toNat?).map (fun n => (n : ℚ))

/-- JS comparison x < c where x may be NaN (none): NaN comparisons are false. -/
def optLt : Option ℚ → ℚ → Bool
  | some a, b => decide (a < b)
  | none, _ => false

/-- JS division with a possibly-NaN numerator. A zero divisor yields a
non-finite value in JS; it is collapsed to none here, which makes every
threshold comparison false. The app never divides by zero: the divisor is
the config field maxCpuToast, a positive number, and every theorem that
touches this path carries the corresponding hypothesis. -/
def jsDiv : Option ℚ → ℚ → Option ℚ
  | none, _ => none
  | some a, b => if b = 0 then none else some (a / b)

/-- One entity of the metrics feed (a pod or a node). -/
structure Entity where
  name : String
  «namespace» : Option String
  cpuUsage : JsVal
  memoryUsage : ℚ
deriving DecidableEq

/-- The configuration fields read by the embedded functions, one field per
config key of the source. -/
structure Config where
  maxCpuToast : ℚ
  zoomiesFreq : ℚ
  copsFreq : ℚ
  copsAndRobbers : Bool
  butterChance : ℚ
  butterMaxSlices : ℕ
  durationMin : ℚ
  durationMax : ℚ
  excludeNamespaces : List String
  santaFreq : ℚ
  christmasToasters : List String
deriving DecidableEq

/-- The ratio computed by the normal-mode chooseImageType on the non-sentinel
path: data.cpuUsage / config.maxCpuToast for toast, data.cpuUsage for toaster. -/
def usageRatio (data : Entity) (type : Kind) (cfg : Config) : Option ℚ :=
  if type = Kind.toast then jsDiv (toNumber data.cpuUsage) cfg.maxCpuToast
  else toNumber data.cpuUsage

/-- Normal-mode chooseImageType: sentinel cpuUsage routes to the kind-specific
missing variant, otherwise the usage ratio is bucketed by the thresholds
0.25, 0.5 and 0.75 into the numbered variants 1 to 4. -/
def chooseImageType (data : Entity) (type : Kind) (cfg : Config) : String :=
  if data.cpuUsage = JsVal.str "4040404" then
    if type = Kind.toast then "missing-toast" else "missing-toaster"
  else
    let r := usageRatio data type cfg
    if optLt r (1/4) then type.str ++ "1"
    else if optLt r (1/2) then type.str ++ "2"
    else if optLt r (3/4) then type.str ++ "3"
    else type.str ++ "4"

/-- Modelled from the spec for refinement comparison with usageRatio: the
spec sentence reads ratio = kind == toast ? entity.cpuUsage / config.maxCpuToast
: entity.memoryUsage, so the toaster branch reads memoryUsage here. -/
def usageRatioSpec (data : Entity) (type : Kind) (cfg : Config) : Option ℚ :=
  if type = Kind.toast then jsDiv (toNumber data.cpuUsage) cfg.maxCpuToast
  else some data.memoryUsage

/-- The selector as the spec describes it, differing from chooseImageType
only in the ratio it buckets; used to exhibit where code and spec diverge. -/
def chooseImageTypeSpec (data : Entity) (type : Kind) (cfg : Config) : String :=
  if data.cpuUsage = JsVal.str "4040404" then
    if type = Kind.toast then "missing-toast" else "missing-toaster"
  else
    let r := usageRatioSpec data type cfg
    if optLt r (1/4) then type.str ++ "1"
    else if optLt r (1/2) then type.str ++ "2"
    else if optLt r (3/4) then type.str ++ "3"
    else type.str ++ "4"

/-- Christmas-mode chooseImageType: with the santa draw below santaFreq the
special variant, otherwise a random index into the configured themed list.
The two Math.random calls are the parameters rSanta and rPick; a JS index
beyond the list bounds yields undefined, modelled as none. -/
def chooseImageTypeXmas (cfg : Config) (rSanta rPick : ℚ) : Option String :=
  if rSanta < cfg.santaFreq then some "santa"
  else cfg.christmasToasters[(⌊rPick * (cfg.christmasToasters.length : ℚ)⌋).toNat]?

/-- The per-sprite mutable state touched by the leg-completion branch of
moveItem (the React state cells isZoomie, isCop, hasButter, butterSlices and
duration of FlyingItem). -/
structure SpriteState where
  isZoomie : Bool
  isCop : Bool
  hasButter : Bool
  butterSlices : ℕ
  duration : ℚ
deriving DecidableEq

/-- The five Math.random draws made by one leg-completion transition, in the
order the source makes them: the zoomie check, the duration formula, the cop
check, the butter check, and the slice-count formula. -/
structure LegDraws where
  rZoomie : ℚ
  rDur : ℚ
  rCop : ℚ
  rButter : ℚ
  rSlices : ℚ
deriving DecidableEq

/-- The random duration formula Math.random() * (durationMax - durationMin)
+ durationMin. -/
def randDuration (cfg : Config) (r : ℚ) : ℚ :=
  r * (cfg.durationMax - cfg.durationMin) + cfg.durationMin

/-- The zoomie draw: Math.random() < 1 / config.zoomiesFreq. -/
def zoomieDraw (cfg : Config) (d : LegDraws) : Bool :=
  decide (d.rZoomie < 1 / cfg.zoomiesFreq)

/-- The cop condition: zoomieChance && config.copsAndRobbers &&
Math.random() < 1 / config.copsFreq. -/
def copDraw (cfg : Config) (d : LegDraws) : Bool :=
  zoomieDraw cfg d && cfg.copsAndRobbers && decide (d.rCop < 1 / cfg.copsFreq)

/-- The butter condition: config.butterChance > 0 && Math.random() < 1 /
config.butterChance. -/
def butterDraw (cfg : Config) (d : LegDraws) : Bool :=
  decide (0 < cfg.butterChance) && decide (d.rButter < 1 / cfg.butterChance)

/-- The new leg duration: the random duration, divided by 3 on a zoomie leg. -/
def legDuration (cfg : Config) (d : LegDraws) : ℚ :=
  if zoomieDraw cfg d then randDuration cfg d.rDur / 3 else randDuration cfg d.rDur

/-- The slice-count formula Math.floor(Math.random() * config.butterMaxSlices) + 1. -/
def sliceDraw (cfg : Config) (d : LegDraws) : ℕ :=
  (⌊d.rSlices * (cfg.butterMaxSlices : ℚ)⌋).toNat + 1

/-- The leg-completion branch of moveItem (the else branch of progress < 1):
sets isZoomie and the new duration, then either marks the sprite a cop and
zeroes the slice count, or clears isCop and settles butter: butter is granted
for toast when the butter draw succeeds, with a random slice count on a
zoomie leg and zero slices otherwise, and is cleared together with the slice
count when not granted. -/
def legComplete (cfg : Config) (type : Kind) (st : SpriteState) (d : LegDraws) :
    SpriteState :=
  if copDraw cfg d then
    { st with isZoomie := zoomieDraw cfg d, duration := legDuration cfg d,
              isCop := true, butterSlices := 0 }
  else if butterDraw cfg d && decide (type = Kind.toast) then
    { st with isZoomie := zoomieDraw cfg d, duration := legDuration cfg d,
              isCop := false, hasButter := true,
              butterSlices := if zoomieDraw cfg d then sliceDraw cfg d else 0 }
  else
    { st with isZoomie := zoomieDraw cfg d, duration := legDuration cfg d,
              isCop := false, hasButter := false, butterSlices := 0 }

/-- The initial React state of a FlyingItem: all decorative flags false, no
butter slices, and the initial random duration passed in by the composer. -/
def initialSprite (initialDuration : ℚ) : SpriteState :=
  { isZoomie := false, isCop := false, hasButter := false, butterSlices := 0,
    duration := initialDuration }

/-- The sprite states reachable from the initial state by any sequence of
leg-completion transitions, with arbitrary draws at each step. -/
inductive Reachable (cfg : Config) (type : Kind) : SpriteState → Prop where
  | init (d0 : ℚ) : Reachable cfg type (initialSprite d0)
  | step {s : SpriteState} (d : LegDraws) :
      Reachable cfg type s → Reachable cfg type (legComplete cfg type s d)

/-- A metrics snapshot as fetched: timestamp (null allowed), pods and nodes. -/
structure Snapshot where
  timestamp : Option String
  pods : List Entity
  nodes : List Entity
deriving DecidableEq

/-- The app state touched by fetchDataAndUpdate: the displayed dataQueue
(pods and nodes) and the lastUpdated status string (null before any data). -/
structure AppState where
  pods : List Entity
  nodes : List Entity
  lastUpdated : Option String
deriving DecidableEq

/-- The namespace exclusion test config.excludeNamespaces.includes(pod.namespace);
a null namespace is never a member of a list of strings. -/
def excludedPod (excl : List String) (p : Entity) : Bool :=
  match p.«namespace» with
  | some ns => decide (ns ∈ excl)
  | none => false

/-- JS template-literal rendering of the timestamp: null prints as null. -/
def tsText : Option String → String
  | some s => s
  | none => "null"

/-- The body of fetchDataAndUpdate: when data.timestamp differs from the
stored lastUpdated value, replace the pod list with the snapshot pods minus
excluded namespaces, replace the node list wholesale, and store the
decorated status string timestamp (source); otherwise leave the state as is. -/
def fetchDataAndUpdate (cfg : Config) (st : AppState) (data : Snapshot)
    (source : String) : AppState :=
  if data.timestamp ≠ st.lastUpdated then
    { pods := data.pods.filter (fun p => ! excludedPod cfg.excludeNamespaces p),
      nodes := data.nodes,
      lastUpdated := some (tsText data.timestamp ++ " (" ++ source ++ ")") }
  else st

/-- The initial app state: empty dataQueue and a null lastUpdated. -/
def initialApp : AppState := { pods := [], nodes := [], lastUpdated := none }

/-- The built-in default configuration of App, restricted to the modelled
fields (santaFreq 0.1 is the rational 1/10). -/
def defaultConfig : Config :=
  { maxCpuToast := 100, zoomiesFreq := 10, copsFreq := 5, copsAndRobbers := true,
    butterChance := 5, butterMaxSlices := 10, durationMin := 15000,
    durationMax := 20000, excludeNamespaces := ["argocd"], santaFreq := 1/10,
    christmasToasters := [] }

/-- A themed configuration with a nonempty christmasToasters list. -/
def xmasConfig : Config :=
  { defaultConfig with christmasToasters := ["merry-toaster", "elf-toaster"] }

/-- A pod in an excluded namespace. -/
def podArgo : Entity :=
  { name := "argo-app", «namespace» := some "argocd",
    cpuUsage := JsVal.num 10, memoryUsage := 100 }

/-- A pod in a kept namespace, matching the spec example with cpuUsage 80. -/
def podWeb : Entity :=
  { name := "web", «namespace» := some "default",
    cpuUsage := JsVal.num 80, memoryUsage := 500 }

/-- A pod with a null namespace. -/
def podBare : Entity :=
  { name := "bare", «namespace» := none,
    cpuUsage := JsVal.num 20, memoryUsage := 50 }

/-- A node entity with fractional usage values. -/
def nodeOne : Entity :=
  { name := "node-1", «namespace» := none,
    cpuUsage := JsVal.num (1/2), memoryUsage := 3/4 }

/-- A concrete snapshot used to instantiate the composer theorems. -/
def snapEx : Snapshot :=
  { timestamp := some "2024-12-01T00:00:00Z",
    pods := [podArgo, podWeb, podBare], nodes := [nodeOne] }

/-- A node with zero cpu usage and full memory usage, separating the two
candidate ratios for the toaster kind. -/
def nodeZero : Entity :=
  { name := "node-0", «namespace» := none,
    cpuUsage := JsVal.num 0, memoryUsage := 1 }

/-- C5: for every entity whose cpuUsage is the sentinel string 4040404, the
normal-mode selector returns the kind-specific missing variant, whatever the
memory usage and the configuration. -/
theorem chooseImageType_sentinel (data : Entity) (type : Kind) (cfg : Config)
    (h : data.cpuUsage = JsVal.str "4040404") :
    chooseImageType data type cfg =
      if type = Kind.toast then "missing-toast" else "missing-toaster" := by
  unfold chooseImageType
  rw [if_pos h]

/-- Witness for C5 at the spec example: cpuUsage 4040404, memoryUsage 500,
kind toast yields the missing-toast variant. -/
theorem chooseImageType_sentinel_witness :
    (Entity.mk "pod-x" none (JsVal.str "4040404") 500).cpuUsage
        = JsVal.str "4040404" ∧
    chooseImageType (Entity.mk "pod-x" none (JsVal.str "4040404") 500)
        Kind.toast defaultConfig = "missing-toast" := by
  refine ⟨rfl, ?_⟩
  have h := chooseImageType_sentinel (Entity.mk "pod-x" none (JsVal.str "4040404") 500)
    Kind.toast defaultConfig rfl
  simpa using h

/-- Helper: on the non-sentinel path the selector is the four-way threshold
split applied to the ratio it computed. -/
theorem chooseImageType_eval (data : Entity) (type : Kind) (cfg : Config) (r : ℚ)
    (hs : data.cpuUsage ≠ JsVal.str "4040404")
    (hr : usageRatio data type cfg = some r) :
    chooseImageType data type cfg =
      if r < 1/4 then type.str ++ "1"
      else if r < 1/2 then type.str ++ "2"
      else if r < 3/4 then type.str ++ "3"
      else type.str ++ "4" := by
  unfold chooseImageType
  rw [if_neg hs]
  simp only [hr, optLt, decide_eq_true_eq]

/-- Helper: the same threshold split for the spec-modelled selector. -/
theorem chooseImageTypeSpec_eval (data : Entity) (type : Kind) (cfg : Config) (r : ℚ)
    (hs : data.cpuUsage ≠ JsVal.str "4040404")
    (hr : usageRatioSpec data type cfg = some r) :
    chooseImageTypeSpec data type cfg =
      if r < 1/4 then type.str ++ "1"
      else if r < 1/2 then type.str ++ "2"
      else if r < 3/4 then type.str ++ "3"
      else type.str ++ "4" := by
  unfold chooseImageTypeSpec
  rw [if_neg hs]
  simp only [hr, optLt, decide_eq_true_eq]

/-- C6: on the non-sentinel path, with r the ratio the selector computes, the
returned variant is 1 when r < 0.25, 2 on [0.25, 0.5), 3 on [0.5, 0.75) and 4
when r ≥ 0.75, so each boundary value belongs to the higher bucket. -/
theorem chooseImageType_buckets (data : Entity) (type : Kind) (cfg : Config) (r : ℚ)
    (hs : data.cpuUsage ≠ JsVal.str "4040404")
    (hr : usageRatio data type cfg = some r) :
    (r < 1/4 → chooseImageType data type cfg = type.str ++ "1") ∧
    (1/4 ≤ r → r < 1/2 → chooseImageType data type cfg = type.str ++ "2") ∧
    (1/2 ≤ r → r < 3/4 → chooseImageType data type cfg = type.str ++ "3") ∧
    (3/4 ≤ r → chooseImageType data type cfg = type.str ++ "4") := by
  rw [chooseImageType_eval data type cfg r hs hr]
  refine ⟨fun h1 => ?_, fun h1 h2 => ?_, fun h1 h2 => ?_, fun h1 => ?_⟩
  · rw [if_pos h1]
  · rw [if_neg (not_lt.mpr h1), if_pos h2]
  · rw [if_neg (not_lt.mpr (by linarith)), if_neg (not_lt.mpr h1), if_pos h2]
  · rw [if_neg (not_lt.mpr (by linarith)), if_neg (not_lt.mpr (by linarith)),
      if_neg (not_lt.mpr h1)]

/-- Witness for C6 at the spec example: cpuUsage 80 with maxCpuToast 100 gives
ratio 0.8, in the top bucket, so the selector returns toast4. -/
theorem chooseImageType_buckets_witness :
    podWeb.cpuUsage ≠ JsVal.str "4040404" ∧
    usageRatio podWeb Kind.toast defaultConfig = some (4/5) ∧
    ((3:ℚ)/4 ≤ 4/5) ∧
    chooseImageType podWeb Kind.toast defaultConfig = "toast4" := by
  have hne : podWeb.cpuUsage ≠ JsVal.str "4040404" := by decide
  have hr : usageRatio podWeb Kind.toast defaultConfig = some (4/5) := by
    norm_num [usageRatio, podWeb, defaultConfig, toNumber, jsDiv]
  refine ⟨hne, hr, by norm_num, ?_⟩
  have h := (chooseImageType_buckets podWeb Kind.toast defaultConfig (4/5)
    hne hr).2.2.2 (by norm_num)
  have hstr : Kind.str Kind.toast ++ "4" = "toast4" := by decide
  rw [hstr] at h
  exact h

/-- C1 counterexample: a toaster entity with cpuUsage 0 and memoryUsage 1.
The code buckets the cpu value and returns toaster1, while bucketing the
ratio the spec describes (memoryUsage for toasters) would return toaster4,
so the selector does not compute the toaster ratio from memoryUsage. -/
theorem chooseImageType_toaster_ignores_memory :
    chooseImageType nodeZero Kind.toaster defaultConfig = "toaster1" ∧
    chooseImageTypeSpec nodeZero Kind.toaster defaultConfig = "toaster4" := by
  have hs : nodeZero.cpuUsage ≠ JsVal.str "4040404" := by decide
  have h1 := chooseImageType_eval nodeZero Kind.toaster defaultConfig 0 hs
    (by simp [usageRatio, nodeZero, toNumber])
  have h2 := chooseImageTypeSpec_eval nodeZero Kind.toaster defaultConfig 1 hs
    (by simp [usageRatioSpec, nodeZero])
  rw [if_pos (by norm_num : (0:ℚ) < 1/4)] at h1
  rw [if_neg (by norm_num : ¬ ((1:ℚ) < 1/4)), if_neg (by norm_num : ¬ ((1:ℚ) < 1/2)),
    if_neg (by norm_num : ¬ ((1:ℚ) < 3/4))] at h2
  have e1 : Kind.str Kind.toaster ++ "1" = "toaster1" := by decide
  have e4 : Kind.str Kind.toaster ++ "4" = "toaster4" := by decide
  rw [e1] at h1
  rw [e4] at h2
  exact ⟨h1, h2⟩

/-- C1 amended: for every non-sentinel entity with a numeric cpuUsage, the
ratio the selector buckets is computed from cpuUsage for both kinds, divided
by maxCpuToast for toast and taken directly for toaster, and the result of
the selector never depends on memoryUsage. -/
theorem chooseImageType_ratio_from_cpu (data : Entity) (type : Kind) (cfg : Config)
    (v : ℚ) (hv : data.cpuUsage = JsVal.num v) (hc : cfg.maxCpuToast ≠ 0) :
    usageRatio data type cfg =
      some (if type = Kind.toast then v / cfg.maxCpuToast else v) ∧
    ∀ m : ℚ, chooseImageType { data with memoryUsage := m } type cfg =
      chooseImageType data type cfg := by
  constructor
  · by_cases ht : type = Kind.toast
    · simp [usageRatio, ht, hv, toNumber, jsDiv, hc]
    · simp [usageRatio, ht, hv, toNumber]
  · intro m
    rfl

/-- Witness for C1 at the concrete node entity nodeOne: its cpu value 1/2 is
itself the ratio the selector buckets for the toaster kind. -/
theorem chooseImageType_ratio_from_cpu_witness :
    nodeOne.cpuUsage = JsVal.num (1/2) ∧ defaultConfig.maxCpuToast ≠ 0 ∧
    usageRatio nodeOne Kind.toaster defaultConfig = some (1/2) := by
  have hc : defaultConfig.maxCpuToast ≠ 0 := by norm_num [defaultConfig]
  refine ⟨rfl, hc, ?_⟩
  have h := (chooseImageType_ratio_from_cpu nodeOne Kind.toaster defaultConfig
    (1/2) rfl hc).1
  simpa using h

/-- Helper: a draw in [0,1) scaled by a positive length and floored gives an
index below that length. -/
theorem floor_scale_toNat_lt (r : ℚ) (n : ℕ) (h0 : 0 ≤ r) (h1 : r < 1)
    (hn : 1 ≤ n) : (⌊r * (n : ℚ)⌋).toNat < n := by
  have hnq : (0:ℚ) < (n : ℚ) := by exact_mod_cast Nat.lt_of_lt_of_le Nat.zero_lt_one hn
  have hlt : ⌊r * (n : ℚ)⌋ < (n : ℤ) := by
    rw [Int.floor_lt]
    push_cast
    nlinarith
  omega

/-- C4 counterexample: in themed mode with the default configuration, whose
themed list is empty, a failed santa draw indexes into an empty list and the
selector yields no defined variant name. -/
theorem chooseImageTypeXmas_empty_none :
    chooseImageTypeXmas defaultConfig (1/2) 0 = none := by
  unfold chooseImageTypeXmas
  rw [if_neg (by norm_num [defaultConfig])]
  rfl

/-- C4 amended: the christmas-mode selector returns a defined variant name
whenever the santa draw succeeds or the configured themed list is nonempty
and the pick draw lies in [0,1); only the empty-list non-santa case is
undefined. The normal-mode selector chooseImageType is total by type. -/
theorem chooseImageTypeXmas_defined (cfg : Config) (rS rP : ℚ)
    (h0 : 0 ≤ rP) (h1 : rP < 1)
    (h : rS < cfg.santaFreq ∨ cfg.christmasToasters ≠ []) :
    (chooseImageTypeXmas cfg rS rP).isSome = true := by
  unfold chooseImageTypeXmas
  by_cases hs : rS < cfg.santaFreq
  · rw [if_pos hs]
    rfl
  · rw [if_neg hs]
    have hne : cfg.christmasToasters ≠ [] := by
      rcases h with h | h
      · exact absurd h hs
      · exact h
    have hn : 1 ≤ cfg.christmasToasters.length := by
      have := List.length_pos.mpr hne
      omega
    have hlt := floor_scale_toNat_lt rP cfg.christmasToasters.length h0 h1 hn
    rw [List.getElem?_eq_getElem hlt]
    rfl

/-- Witness for C4 at a configuration with a two-element themed list and a
failed santa draw. -/
theorem chooseImageTypeXmas_defined_witness :
    (0:ℚ) ≤ 1/2 ∧ ((1:ℚ)/2 < 1) ∧ xmasConfig.christmasToasters ≠ [] ∧
    (chooseImageTypeXmas xmasConfig (1/2) (1/2)).isSome = true := by
  have hne : xmasConfig.christmasToasters ≠ [] := by
    simp [xmasConfig]
  exact ⟨by norm_num, by norm_num, hne,
    chooseImageTypeXmas_defined xmasConfig (1/2) (1/2) (by norm_num) (by norm_num)
      (Or.inr hne)⟩

/-- Helper: every leg-completion branch writes the zoomie draw to isZoomie. -/
theorem legComplete_isZoomie_eq (cfg : Config) (type : Kind) (st : SpriteState)
    (d : LegDraws) : (legComplete cfg type st d).isZoomie = zoomieDraw cfg d := by
  unfold legComplete
  split
  · rfl
  · split
    · rfl
    · rfl

/-- Helper: every leg-completion branch writes the new leg duration. -/
theorem legComplete_duration_eq (cfg : Config) (type : Kind) (st : SpriteState)
    (d : LegDraws) : (legComplete cfg type st d).duration = legDuration cfg d := by
  unfold legComplete
  split
  · rfl
  · split
    · rfl
    · rfl

/-- Helper: whenever a leg completion sets the cop flag it also zeroes the
slice count, whatever the previous state was. -/
theorem legComplete_cop_slices_aux (cfg : Config) (type : Kind) (st : SpriteState)
    (d : LegDraws) :
    (legComplete cfg type st d).isCop = true →
    (legComplete cfg type st d).butterSlices = 0 := by
  unfold legComplete
  split
  · intro _
    rfl
  · split
    · intro hcop
      simp at hcop
    · intro hcop
      simp at hcop

/-- Helper: the slice-count formula yields at least one slice. -/
theorem sliceDraw_ge_one (cfg : Config) (d : LegDraws) : 1 ≤ sliceDraw cfg d := by
  unfold sliceDraw
  omega

/-- Helper: for a draw in [0,1) the slice-count formula stays within the
configured maximum, provided the maximum is at least 1. -/
theorem sliceDraw_le (cfg : Config) (d : LegDraws) (h0 : 0 ≤ d.rSlices)
    (h1 : d.rSlices < 1) (hm : 1 ≤ cfg.butterMaxSlices) :
    sliceDraw cfg d ≤ cfg.butterMaxSlices := by
  have := floor_scale_toNat_lt d.rSlices cfg.butterMaxSlices h0 h1 hm
  unfold sliceDraw
  omega

/-- C3 counterexample: a cop transition from a buttered state. With the
default configuration and zoomie and cop draws of 0, the sprite becomes a cop
and the slice count clears, yet hasButter stays true instead of becoming
false, so not all butter state is cleared. -/
theorem legComplete_cop_keeps_hasButter :
    (legComplete defaultConfig Kind.toast
        ⟨true, false, true, 5, 17000⟩ ⟨0, 0, 0, 0, 0⟩).isCop = true ∧
    (legComplete defaultConfig Kind.toast
        ⟨true, false, true, 5, 17000⟩ ⟨0, 0, 0, 0, 0⟩).hasButter = true := by
  have hc : copDraw defaultConfig ⟨0, 0, 0, 0, 0⟩ = true := by
    norm_num [copDraw, zoomieDraw, defaultConfig]
  unfold legComplete
  rw [if_pos hc]
  exact ⟨rfl, rfl⟩

/-- C3 amended: at every leg completion where the cop decoration is chosen,
the butter slice count becomes 0 and the cop flag is set, but the hasButter
flag keeps its value from the previous leg rather than being cleared. -/
theorem legComplete_cop_clears_slices (cfg : Config) (type : Kind)
    (st : SpriteState) (d : LegDraws) (hc : copDraw cfg d = true) :
    (legComplete cfg type st d).isCop = true ∧
    (legComplete cfg type st d).butterSlices = 0 ∧
    (legComplete cfg type st d).hasButter = st.hasButter := by
  unfold legComplete
  rw [if_pos hc]
  exact ⟨rfl, rfl, rfl⟩

/-- Witness for C3 at the default configuration with zoomie and cop draws 0. -/
theorem legComplete_cop_clears_slices_witness :
    copDraw defaultConfig ⟨0, 0, 0, 0, 0⟩ = true ∧
    (legComplete defaultConfig Kind.toast (initialSprite 15500)
        ⟨0, 0, 0, 0, 0⟩).isCop = true := by
  have hc : copDraw defaultConfig ⟨0, 0, 0, 0, 0⟩ = true := by
    norm_num [copDraw, zoomieDraw, defaultConfig]
  exact ⟨hc, (legComplete_cop_clears_slices defaultConfig Kind.toast
    (initialSprite 15500) ⟨0, 0, 0, 0, 0⟩ hc).1⟩

/-- C8: a leg completion flags the sprite a zoomie exactly when the zoomie
draw is below 1/zoomiesFreq; a zoomie leg gets the random duration divided by
3 and a normal leg the random duration itself, and for a duration draw in
[0,1) the random duration lies in [durationMin, durationMax]. -/
theorem legComplete_zoomie_duration (cfg : Config) (type : Kind)
    (st : SpriteState) (d : LegDraws) (h0 : 0 ≤ d.rDur) (h1 : d.rDur < 1)
    (hd : cfg.durationMin ≤ cfg.durationMax) :
    ((legComplete cfg type st d).isZoomie = true ↔
      d.rZoomie < 1 / cfg.zoomiesFreq) ∧
    ((legComplete cfg type st d).isZoomie = true →
      (legComplete cfg type st d).duration = randDuration cfg d.rDur / 3) ∧
    ((legComplete cfg type st d).isZoomie = false →
      (legComplete cfg type st d).duration = randDuration cfg d.rDur) ∧
    cfg.durationMin ≤ randDuration cfg d.rDur ∧
    randDuration cfg d.rDur ≤ cfg.durationMax := by
  rw [legComplete_isZoomie_eq, legComplete_duration_eq]
  refine ⟨?_, ?_, ?_, ?_, ?_⟩
  · simp [zoomieDraw]
  · intro hz
    simp [legDuration, hz]
  · intro hz
    simp [legDuration, hz]
  · have hnn : 0 ≤ d.rDur * (cfg.durationMax - cfg.durationMin) :=
      mul_nonneg h0 (by linarith)
    unfold randDuration
    linarith
  · have hle : d.rDur * (cfg.durationMax - cfg.durationMin) ≤
        cfg.durationMax - cfg.durationMin :=
      mul_le_of_le_one_left (by linarith) (le_of_lt h1)
    unfold randDuration
    linarith

/-- Witness for C8: default configuration, zoomie draw 0, duration draw 1/2. -/
theorem legComplete_zoomie_duration_witness :
    (0:ℚ) ≤ 1/2 ∧ ((1:ℚ)/2 < 1) ∧
    defaultConfig.durationMin ≤ defaultConfig.durationMax ∧
    (legComplete defaultConfig Kind.toast (initialSprite 16000)
        ⟨0, 1/2, 1/2, 1/2, 0⟩).isZoomie = true := by
  refine ⟨by norm_num, by norm_num, by norm_num [defaultConfig], ?_⟩
  exact (legComplete_zoomie_duration defaultConfig Kind.toast (initialSprite 16000)
    ⟨0, 1/2, 1/2, 1/2, 0⟩ (by norm_num) (by norm_num)
    (by norm_num [defaultConfig])).1.mpr (by norm_num [defaultConfig])

/-- C7: at a leg completion that is not a cop leg, butter is granted exactly
when the kind is toast, butterChance is positive and the butter draw is below
1/butterChance; a granted zoomie leg gets a slice count in [1, butterMaxSlices],
a granted non-zoomie leg gets zero slices, and when butter is not granted the
flag clears and the slice count resets to 0; butterChance 0 never grants
butter since its draw condition is then false. -/
theorem legComplete_butter (cfg : Config) (type : Kind) (st : SpriteState)
    (d : LegDraws) (hnc : copDraw cfg d = false) (hs0 : 0 ≤ d.rSlices)
    (hs1 : d.rSlices < 1) (hm : 1 ≤ cfg.butterMaxSlices) :
    ((legComplete cfg type st d).hasButter = true ↔
      (type = Kind.toast ∧ 0 < cfg.butterChance ∧
        d.rButter < 1 / cfg.butterChance)) ∧
    ((legComplete cfg type st d).hasButter = true →
      (legComplete cfg type st d).isZoomie = true →
      1 ≤ (legComplete cfg type st d).butterSlices ∧
      (legComplete cfg type st d).butterSlices ≤ cfg.butterMaxSlices) ∧
    ((legComplete cfg type st d).hasButter = true →
      (legComplete cfg type st d).isZoomie = false →
      (legComplete cfg type st d).butterSlices = 0) ∧
    ((legComplete cfg type st d).hasButter = false →
      (legComplete cfg type st d).butterSlices = 0) ∧
    (cfg.butterChance = 0 → (legComplete cfg type st d).hasButter = false) := by
  unfold legComplete
  rw [hnc]
  simp only [Bool.false_eq_true, if_false]
  by_cases hb : (butterDraw cfg d && decide (type = Kind.toast)) = true
  · rw [if_pos hb]
    rw [Bool.and_eq_true, decide_eq_true_eq] at hb
    obtain ⟨hbd, hty⟩ := hb
    rw [butterDraw, Bool.and_eq_true, decide_eq_true_eq, decide_eq_true_eq] at hbd
    obtain ⟨hbc, hrb⟩ := hbd
    refine ⟨⟨fun _ => ⟨hty, hbc, hrb⟩, fun _ => rfl⟩, ?_, ?_, ?_, ?_⟩
    · intro _ hz
      have hz2 : zoomieDraw cfg d = true := hz
      constructor
      · show 1 ≤ (if zoomieDraw cfg d then sliceDraw cfg d else 0)
        rw [hz2]
        simpa using sliceDraw_ge_one cfg d
      · show (if zoomieDraw cfg d then sliceDraw cfg d else 0) ≤ cfg.butterMaxSlices
        rw [hz2]
        simpa using sliceDraw_le cfg d hs0 hs1 hm
    · intro _ hz
      have hz2 : zoomieDraw cfg d = false := hz
      show (if zoomieDraw cfg d then sliceDraw cfg d else 0) = 0
      rw [hz2]
      simp
    · intro hbf
      simp at hbf
    · intro hbc0
      rw [hbc0] at hbc
      exact absurd hbc (lt_irrefl 0)
  · rw [if_neg hb]
    refine ⟨⟨fun hbf => ?_, fun hrhs => ?_⟩, ?_, ?_, fun _ => rfl, fun _ => rfl⟩
    · simp at hbf
    · exfalso
      apply hb
      rw [Bool.and_eq_true, decide_eq_true_eq]
      refine ⟨?_, hrhs.1⟩
      rw [butterDraw, Bool.and_eq_true, decide_eq_true_eq, decide_eq_true_eq]
      exact ⟨hrhs.2.1, hrhs.2.2⟩
    · intro hbf
      simp at hbf
    · intro hbf
      simp at hbf

/-- Witness for C7: default configuration, kind toast, zoomie draw 0, cop draw
1/2 (so the cop condition fails), butter draw 0 and slice draw 1/2: butter is
granted on a zoomie leg. -/
theorem legComplete_butter_witness :
    copDraw defaultConfig ⟨0, 0, 1/2, 0, 1/2⟩ = false ∧
    (0:ℚ) ≤ 1/2 ∧ ((1:ℚ)/2 < 1) ∧ 1 ≤ defaultConfig.butterMaxSlices ∧
    (legComplete defaultConfig Kind.toast (initialSprite 16000)
        ⟨0, 0, 1/2, 0, 1/2⟩).hasButter = true := by
  have hnc : copDraw defaultConfig ⟨0, 0, 1/2, 0, 1/2⟩ = false := by
    norm_num [copDraw, zoomieDraw, defaultConfig]
  refine ⟨hnc, by norm_num, by norm_num, by norm_num [defaultConfig], ?_⟩
  exact (legComplete_butter defaultConfig Kind.toast (initialSprite 16000)
    ⟨0, 0, 1/2, 0, 1/2⟩ hnc (by norm_num) (by norm_num)
    (by norm_num [defaultConfig])).1.mpr
    ⟨rfl, by norm_num [defaultConfig], by norm_num [defaultConfig]⟩

/-- C9: in every sprite state reachable by leg-completion transitions from
the initial state (cop flag unset, zero butter slices), a set cop flag
implies a zero butter slice count. -/
theorem reachable_cop_no_butter (cfg : Config) (type : Kind) (s : SpriteState)
    (h : Reachable cfg type s) : s.isCop = true → s.butterSlices = 0 := by
  induction h with
  | init d0 =>
    intro hc
    simp [initialSprite] at hc
  | step d hr ih =>
    intro hc
    exact legComplete_cop_slices_aux _ _ _ _ hc

/-- Witness for C9 at a concrete reachable cop state: one cop transition out
of the initial state with all draws 0 under the default configuration. -/
theorem reachable_cop_no_butter_witness :
    (legComplete defaultConfig Kind.toast (initialSprite 17000)
        ⟨0, 0, 0, 0, 0⟩).butterSlices = 0 := by
  refine reachable_cop_no_butter defaultConfig Kind.toast _
    (Reachable.step ⟨0, 0, 0, 0, 0⟩ (Reachable.init 17000)) ?_
  have hc : copDraw defaultConfig ⟨0, 0, 0, 0, 0⟩ = true := by
    norm_num [copDraw, zoomieDraw, defaultConfig]
  unfold legComplete
  rw [if_pos hc]

/-- C10: when the timestamp guard accepts a snapshot, the displayed pod list
is exactly the snapshot pods with excluded namespaces dropped, the node list
is the snapshot nodes unchanged, and no displayed pod carries a namespace
from the exclusion list. -/
theorem fetchDataAndUpdate_filters_pods (cfg : Config) (st : AppState)
    (data : Snapshot) (source : String) (h : data.timestamp ≠ st.lastUpdated) :
    (fetchDataAndUpdate cfg st data source).pods =
      data.pods.filter (fun p => ! excludedPod cfg.excludeNamespaces p) ∧
    (fetchDataAndUpdate cfg st data source).nodes = data.nodes ∧
    ∀ p ∈ (fetchDataAndUpdate cfg st data source).pods,
      ∀ ns, p.«namespace» = some ns → ¬ ns ∈ cfg.excludeNamespaces := by
  unfold fetchDataAndUpdate
  rw [if_pos h]
  refine ⟨rfl, rfl, ?_⟩
  intro p hp ns hns hmem
  rw [List.mem_filter] at hp
  have hex := hp.2
  rw [Bool.not_eq_true'] at hex
  unfold excludedPod at hex
  rw [hns] at hex
  simp only [decide_eq_false_iff_not] at hex
  exact hex hmem

/-- Witness for C10 at a concrete snapshot containing a pod in the excluded
argocd namespace, a kept pod, a pod with a null namespace and one node. -/
theorem fetchDataAndUpdate_filters_pods_witness :
    snapEx.timestamp ≠ initialApp.lastUpdated ∧
    (fetchDataAndUpdate defaultConfig initialApp snapEx "remote").nodes
      = snapEx.nodes := by
  have h : snapEx.timestamp ≠ initialApp.lastUpdated := by
    simp [snapEx, initialApp]
  exact ⟨h, (fetchDataAndUpdate_filters_pods defaultConfig initialApp snapEx
    "remote" h).2.1⟩

/-- C2: evidence of the code bug in the skip guard. After a snapshot with
timestamp T1 is accepted from the local source, the stored lastUpdated value
is the decorated string T1 (local). A later fetch of a snapshot with the
identical timestamp T1 from the remote source compares the raw T1 against
that decorated string, finds them different, and re-applies the update, so
the displayed last-updated status changes to T1 (remote) instead of the
update being skipped with the state left unchanged. -/
theorem fetchDataAndUpdate_same_timestamp_reapplies :
    (fetchDataAndUpdate defaultConfig initialApp
        ⟨some "T1", [], []⟩ "local").lastUpdated = some "T1 (local)" ∧
    (fetchDataAndUpdate defaultConfig
        (fetchDataAndUpdate defaultConfig initialApp ⟨some "T1", [], []⟩ "local")
        ⟨some "T1", [], []⟩ "remote").lastUpdated = some "T1 (remote)" ∧
    fetchDataAndUpdate defaultConfig
        (fetchDataAndUpdate defaultConfig initialApp ⟨some "T1", [], []⟩ "local")
        ⟨some "T1", [], []⟩ "remote" ≠
      fetchDataAndUpdate defaultConfig initialApp ⟨some "T1", [], []⟩ "local" := by
  have h1 : fetchDataAndUpdate defaultConfig initialApp
      ⟨some "T1", [], []⟩ "local" =
      { pods := [], nodes := [], lastUpdated := some "T1 (local)" } := by
    unfold fetchDataAndUpdate
    rw [if_pos (by simp [initialApp])]
    rfl
  have h2 : fetchDataAndUpdate defaultConfig
      { pods := [], nodes := [], lastUpdated := some "T1 (local)" }
      ⟨some "T1", [], []⟩ "remote" =
      { pods := [], nodes := [], lastUpdated := some "T1 (remote)" } := by
    unfold fetchDataAndUpdate
    rw [if_pos (by simp)]
    rfl
  rw [h1, h2]
  refine ⟨rfl, rfl, ?_⟩
  simp
